import Mathlib

/-!
Verification of the remote-access layer of a Bitbucket pull-request CLI.

This file shallowly embeds the credential resolver (`auth.py`), the retrying
HTTP transport with its response-to-failure classification (`api.py`), and the
cursor-based pagination walker (`api.py`), and proves the spec's claims about
them.  Python dicts are modelled as association lists, JSON values as an
inductive `Json`, Python truthiness explicitly (`None` and empty strings and
the integer 0 are falsy), and the network as an explicit script of responses.
-/

namespace BitbucketCLI

/-- A JSON value as decoded from a response body (Python objects produced by
`response.json()`).  Objects keep field insertion order, like Python dicts. -/
inductive Json where
  | null : Json
  | bool : Bool → Json
  | num : Int → Json
  | str : String → Json
  | arr : List Json → Json
  | obj : List (String × Json) → Json
deriving Repr

/-- `dict.get(k)` on an association list: first matching key, if any. -/
def lookupField : List (String × Json) → String → Option Json
  | [], _ => none
  | (k, v) :: rest, key => if k = key then some v else lookupField rest key

/-- `d[k] = v` on an association list: replace the first binding of `k`
in place, else append at the end (Python dict insertion-order semantics). -/
def setField : List (String × Json) → String → Json → List (String × Json)
  | [], key, v => [(key, v)]
  | (k, w) :: rest, key, v =>
    if k = key then (key, v) :: rest else (k, w) :: setField rest key v

/-- `j.get(k)` when `j` is a JSON object; `none` otherwise or when absent. -/
def Json.get : Json → String → Option Json
  | .obj fields, key => lookupField fields key
  | _, _ => none

/-- Python truthiness of an optional string: `None` and `""` are falsy. -/
def truthy : Option String → Bool
  | none => false
  | some s => !s.isEmpty

/-- Python truthiness of an optional integer: `None` and `0` are falsy. -/
def truthyInt : Option Int → Bool
  | none => false
  | some n => n != 0

/-- Python `a or b` on optional strings: `a` when truthy, else `b`. -/
def pyOr (a b : Option String) : Option String :=
  if truthy a then a else b

/-! ## Credential resolver (`auth.py`) -/

/-- The `auth` group of the configuration: the five optional credential
slots of `DEFAULT_CONFIG["auth"]`. -/
structure AuthSlots where
  repo_token : Option String
  username : Option String
  app_password : Option String
  workspace : Option String
  oauth_token : Option String
deriving Repr

/-- The four recognized environment overrides (`os.getenv` results;
`none` means the variable is unset). -/
structure EnvVars where
  bitbucket_repo_token : Option String
  bitbucket_oauth_token : Option String
  bitbucket_username : Option String
  bitbucket_app_password : Option String
deriving Repr

/-- `auth.get("repo_token") or os.getenv("BITBUCKET_REPO_TOKEN")`. -/
def resolveRepoToken (a : AuthSlots) (e : EnvVars) : Option String :=
  pyOr a.repo_token e.bitbucket_repo_token

/-- `auth.get("oauth_token") or os.getenv("BITBUCKET_OAUTH_TOKEN")`. -/
def resolveOauthToken (a : AuthSlots) (e : EnvVars) : Option String :=
  pyOr a.oauth_token e.bitbucket_oauth_token

/-- `auth.get("username") or os.getenv("BITBUCKET_USERNAME")`. -/
def resolveUsername (a : AuthSlots) (e : EnvVars) : Option String :=
  pyOr a.username e.bitbucket_username

/-- `auth.get("app_password") or os.getenv("BITBUCKET_APP_PASSWORD")`. -/
def resolveAppPassword (a : AuthSlots) (e : EnvVars) : Option String :=
  pyOr a.app_password e.bitbucket_app_password

/-- The base64 alphabet, position `n` holding the digit for value `n`. -/
def b64Alphabet : List Char :=
  "ABCDEFGHIJKLMNOPQRSTUVWXYZabcdefghijklmnopqrstuvwxyz0123456789+/".toList

/-- One base64 digit (values 0..63). -/
def b64Digit (n : Nat) : Char := b64Alphabet.getD n 'A'

/-- Standard base64 of a byte sequence, with `=` padding
(`base64.b64encode`). -/
def b64EncodeBytes : List Nat → List Char
  | [] => []
  | [a] => [b64Digit (a / 4), b64Digit (a % 4 * 16), '=', '=']
  | [a, b] => [b64Digit (a / 4), b64Digit (a % 4 * 16 + b / 16),
               b64Digit (b % 16 * 4), '=']
  | a :: b :: c :: rest =>
      b64Digit (a / 4) :: b64Digit (a % 4 * 16 + b / 16) ::
      b64Digit (b % 16 * 4 + c / 64) :: b64Digit (c % 64) ::
      b64EncodeBytes rest

/-- `base64.b64encode(s.encode()).decode()`: base64 of the UTF-8 bytes. -/
def b64EncodeString (s : String) : String :=
  String.mk (b64EncodeBytes (s.toUTF8.toList.map UInt8.toNat))

/-- The errors the embedded code can signal.  The first six are the Typed
Failures raised by the transport and resolver (`exceptions.py`); the last
three model exceptions of the underlying HTTP stack that are *not* part of
the typed taxonomy: a JSON decode error escaping `response.json()`, the
`requests.exceptions.RetryError` raised by the adapter when the configured
urllib3 retry budget is exhausted on a forcelisted status, and a
`requests.RequestException` for network-level failures. -/
inductive ApiError where
  | authentication : String → ApiError
  | permission : String → ApiError
  | notFound : String → ApiError
  | conflict : String → ApiError
  | rateLimit : String → ApiError
  | apiError : String → ApiError
  | jsonDecode : ApiError
  | retryExhausted : ApiError
  | network : String → ApiError
deriving Repr

/-- The message carried by an exception (Python `str(e)`). -/
def ApiError.message : ApiError → String
  | .authentication m => m
  | .permission m => m
  | .notFound m => m
  | .conflict m => m
  | .rateLimit m => m
  | .apiError m => m
  | .jsonDecode => "JSON decode error"
  | .retryExhausted => "Max retries exceeded"
  | .network m => m

/-- Is this outcome a `RateLimitError` (of any message)? -/
def isRateLimitFailure : Except ApiError Json → Bool
  | .error (.rateLimit _) => true
  | _ => false

/-- The fixed header set built around a given `Authorization` value
(all three branches of `get_auth_headers` attach the same other headers). -/
def authHeaderSet (authorization : String) : List (String × String) :=
  [("Authorization", authorization),
   ("Accept", "application/json"),
   ("Content-Type", "application/json"),
   ("User-Agent", "bitbucket-cli-for-claude-code/1.0.0")]

/-- `get_auth_headers(config)` (auth.py): resolve each slot against its
environment override, then try repository token, OAuth token, and the
username/app-password pair in that order; raise `AuthenticationError`
when none is available. -/
def get_auth_headers (a : AuthSlots) (e : EnvVars) :
    Except ApiError (List (String × String)) :=
  let repo_token := resolveRepoToken a e
  let oauth_token := resolveOauthToken a e
  let username := resolveUsername a e
  let app_password := resolveAppPassword a e
  if truthy repo_token then
    .ok (authHeaderSet ("Bearer " ++ repo_token.getD ""))
  else if truthy oauth_token then
    .ok (authHeaderSet ("Bearer " ++ oauth_token.getD ""))
  else if truthy username && truthy app_password then
    .ok (authHeaderSet ("Basic " ++
      b64EncodeString (username.getD "" ++ ":" ++ app_password.getD "")))
  else
    .error (.authentication
      ("No authentication configured. Use:\n" ++
       "  bb-pr config --repo-token YOUR_REPO_TOKEN\n" ++
       "  OR export BITBUCKET_REPO_TOKEN=your_token"))

/-- `is_authenticated(config)` (auth.py): the same resolution chains,
collapsed to a boolean. -/
def is_authenticated (a : AuthSlots) (e : EnvVars) : Bool :=
  let repo_token := resolveRepoToken a e
  let oauth_token := resolveOauthToken a e
  let username := resolveUsername a e
  let app_password := resolveAppPassword a e
  if truthy repo_token then true
  else if truthy oauth_token then true
  else truthy username && truthy app_password

/-- `set_auth(...)` (auth.py): sequentially apply each truthy argument to
the stored `auth` group.  Setting a repository token clears the other two
schemes; setting an OAuth token clears only the username/app-password
pair. -/
def set_auth (c : AuthSlots)
    (repo_token username app_password workspace oauth_token : Option String) :
    AuthSlots :=
  let c := if truthy repo_token then
      { c with repo_token := repo_token,
               username := none, app_password := none, oauth_token := none }
    else c
  let c := if truthy username then { c with username := username } else c
  let c := if truthy app_password then
      { c with app_password := app_password } else c
  let c := if truthy workspace then { c with workspace := workspace } else c
  let c := if truthy oauth_token then
      { c with oauth_token := oauth_token,
               username := none, app_password := none }
    else c
  c

/-! ## Transport (`api.py`) -/

/-- An HTTP response as seen by the client: status code, reason phrase,
raw body text, and the result of attempting `response.json()`
(`none` when the body does not decode as JSON; an empty body never
decodes). -/
structure HttpResponse where
  status : Nat
  reason : String
  content : String
  jsonBody : Option Json
deriving Repr

/-- `BitbucketAPI._handle_response` (api.py): the exact
status-to-outcome classification.  200/201 parse the body (empty object
when the body is empty; a decode failure on a nonempty body escapes as a
raw `jsonDecode` exception, outside the typed taxonomy); 204 yields an
empty object; 401/403/404/409/429 raise their dedicated typed failures;
any other status raises `BitbucketAPIError` with a message taken from the
body's `error.message` field when that lookup succeeds, else a generic
`HTTP <code>` message (with the reason phrase when the body did not even
decode, mirroring the bare `except:` branch). -/
def handle_response (r : HttpResponse) : Except ApiError Json :=
  if r.status = 200 || r.status = 201 then
    if r.content = "" then .ok (.obj [])
    else
      match r.jsonBody with
      | some j => .ok j
      | none => .error .jsonDecode
  else if r.status = 204 then .ok (.obj [])
  else if r.status = 401 then
    .error (.authentication "Authentication failed. Check your credentials.")
  else if r.status = 403 then
    .error (.permission "Insufficient permissions for this operation.")
  else if r.status = 404 then
    .error (.notFound "Resource not found.")
  else if r.status = 409 then
    .error (.conflict
      "Conflict - operation cannot be completed (e.g., PR already merged).")
  else if r.status = 429 then
    .error (.rateLimit "Rate limit exceeded. Please wait and try again.")
  else
    match r.jsonBody with
    | none =>
      .error (.apiError
        ("API Error: HTTP " ++ toString r.status ++ ": " ++ r.reason))
    | some body =>
      match body with
      | .obj fields =>
        -- error_data.get("error", {}).get("message", f"HTTP {code}")
        match lookupField fields "error" with
        | none =>
          .error (.apiError ("API Error: HTTP " ++ toString r.status))
        | some (.obj errFields) =>
          match lookupField errFields "message" with
          | some (.str m) => .error (.apiError ("API Error: " ++ m))
          | some _ => .error (.apiError "API Error: <non-string message>")
          | none =>
            .error (.apiError ("API Error: HTTP " ++ toString r.status))
        | some _ =>
          -- `.get("message")` on a non-dict raises; the bare `except:`
          -- catches it and falls back to the generic message with reason
          .error (.apiError
            ("API Error: HTTP " ++ toString r.status ++ ": " ++ r.reason))
      | _ =>
        -- `.get` on a non-dict body raises inside the try; same fallback
        .error (.apiError
          ("API Error: HTTP " ++ toString r.status ++ ": " ++ r.reason))

/-- HTTP methods used by the client. -/
inductive Method where
  | get | post | put | delete | head | options
deriving Repr, DecidableEq

/-- The session's `Retry(allowed_methods=["HEAD", "GET", "OPTIONS"])`:
only these read-only methods are ever retried. -/
def methodRetryable : Method → Bool
  | .head | .get | .options => true
  | _ => false

/-- The session's `Retry(status_forcelist=[429, 500, 502, 503, 504])`:
the only statuses that trigger an automatic retry. -/
def retryableStatus (s : Nat) : Bool :=
  s = 429 || s = 500 || s = 502 || s = 503 || s = 504

/-- One `session.request` against a script of responses the server will
return, under the urllib3 `Retry` strategy configured in
`BitbucketAPI.__init__` (`total = max_retries`, the forcelist and method
allowlist above, default `raise_on_status = True`).  Returns the first
response that is not subject to a status retry together with the number
of HTTP attempts made.  When a retryable response arrives with no retry
budget left, urllib3 raises `MaxRetryError`, which the requests adapter
converts to `requests.exceptions.RetryError` — modelled as
`retryExhausted`; the response itself is never handed to the caller.
An exhausted script models a connection failure. -/
def sessionRequest (m : Method) :
    Nat → List HttpResponse → Except ApiError HttpResponse × Nat
  | _, [] => (.error (.network "connection failed"), 0)
  | budget, r :: rest =>
    if methodRetryable m && retryableStatus r.status then
      match budget with
      | 0 => (.error .retryExhausted, 1)
      | b + 1 =>
        let (out, n) := sessionRequest m b rest
        (out, n + 1)
    else (.ok r, 1)

/-- `BitbucketAPI._request` (api.py), with the server modelled as a
response script: run the session (with its retry strategy), then classify
the final response.  Returns the outcome and the number of HTTP attempts
made. -/
def transport_request (m : Method) (max_retries : Nat)
    (script : List HttpResponse) : Except ApiError Json × Nat :=
  let (out, n) := sessionRequest m max_retries script
  (match out with
   | .ok r => handle_response r
   | .error e => .error e, n)

/-! ## Pagination walker (`api.py`) -/

/-- A decoded page body as consumed by `get_all_pages`: the `values`
list when the key is present, and the `next` cursor URL from
`response.get("next")`. -/
structure PageResp where
  values : Option (List Json)
  next : Option String
deriving Repr

/-- `BitbucketAPI.get_all_pages` (api.py) over a script of page bodies:
one transport call per loop iteration, appending each page's `values`
(when present) in order, following `next` while it is truthy, and
sleeping 0.1 s before each follow-up fetch (never after the final page).
Returns the accumulated items, the number of transport calls, and the
number of sleeps; `none` models the script running out while a cursor
remains. -/
def get_all_pages : List PageResp → Option (List Json × Nat × Nat)
  | [] => none
  | r :: rest =>
    let vals := r.values.getD []
    if truthy r.next then
      match get_all_pages rest with
      | none => none
      | some (items, calls, sleeps) =>
        some (vals ++ items, calls + 1, sleeps + 1)
    else some (vals, 1, 0)

/-- The page record returned by `get_paginated`. -/
structure Page where
  values : Json
  page : Json
  pagelen : Json
  size : Json
  next : Json
  previous : Json
deriving Repr

/-- `BitbucketAPI.get_paginated` (api.py), on the decoded response
object's fields: every pagination field is read with a silent default
(`values = []`, `page = 1`, `pagelen = 10`, `size = 0`,
`next`/`previous = None`). -/
def get_paginated (response : List (String × Json)) : Page :=
  { values := (lookupField response "values").getD (.arr [])
    page := (lookupField response "page").getD (.num 1)
    pagelen := (lookupField response "pagelen").getD (.num 10)
    size := (lookupField response "size").getD (.num 0)
    next := (lookupField response "next").getD .null
    previous := (lookupField response "previous").getD .null }

/-! ## Resource operations: comment payload (`api.py`) -/

/-- The JSON payload built by `BitbucketAPI.add_comment` (api.py) from its
keyword arguments (message text, optional file path, optional single
line, optional multi-line range, optional parent comment id).  Inline
data is attached only when `file` is truthy: `to.path` is always the
file; a truthy `line` sets `to.line`; when `from_line` and `to_line` are
both truthy, a `from` object (same file path, starting line) is added and
`to.line` is overwritten with the ending line.  A truthy `reply_to` adds
a `parent.id` field. -/
def add_comment_payload (message : String) (file : Option String)
    (line from_line to_line reply_to : Option Int) : Json :=
  let payload := [("content", Json.obj [("raw", Json.str message)])]
  let payload :=
    if truthy file then
      let f := file.getD ""
      let toFields := [("path", Json.str f)]
      let toFields :=
        if truthyInt line then
          setField toFields "line" (.num (line.getD 0))
        else toFields
      let (inlineFields, toFields) :=
        if truthyInt from_line && truthyInt to_line then
          ([("to", Json.obj toFields),
            ("from", Json.obj [("path", Json.str f),
                               ("line", Json.num (from_line.getD 0))])],
           setField toFields "line" (.num (to_line.getD 0)))
        else ([("to", Json.obj toFields)], toFields)
      -- re-read `inline["to"]` after the in-place `inline["to"]["line"]`
      -- mutation: the dict under key "to" is the updated toFields
      payload ++ [("inline", Json.obj (setField inlineFields "to"
        (Json.obj toFields)))]
    else payload
  let payload :=
    if truthyInt reply_to then
      payload ++ [("parent", Json.obj [("id", Json.num (reply_to.getD 0))])]
    else payload
  Json.obj payload

/-! ## Credential validation (`auth.py`) -/

/-- The constant result `validate_auth` returns for a repository token,
with no server round trip. -/
def repoTokenUserResult : Json :=
  .obj [("valid", .bool true),
        ("user", .obj [("username", .str "repository-token-user"),
                       ("display_name", .str "Repository Token User"),
                       ("uuid", .null)])]

/-- `user_data.get(k)`: the field when present, else Python `None`. -/
def userField (u : Json) (k : String) : Json := (u.get k).getD .null

/-- `validate_auth(config)` (auth.py), with the single network probe
modelled as an explicit outcome (`.error msg` is a
`requests.RequestException`; `.ok r` an HTTP response).  Returns the
operation's outcome and the number of network calls issued.  Everything
inside the function's `try` that raises a non-request exception — the
resolver's `AuthenticationError` as well as the 401 and non-200 branches
— is re-wrapped by the final `except Exception` as
`AuthenticationError("Authentication validation failed: ...")`; a
`requests.RequestException` is wrapped as
`AuthenticationError("Network error during authentication: ...")`. -/
def validate_auth (a : AuthSlots) (e : EnvVars)
    (net : Except String HttpResponse) : Except ApiError Json × Nat :=
  match get_auth_headers a e with
  | .error ex =>
    (.error (.authentication
      ("Authentication validation failed: " ++ ex.message)), 0)
  | .ok _ =>
    if truthy (resolveRepoToken a e) then
      (.ok repoTokenUserResult, 0)
    else
      match net with
      | .error msg =>
        (.error (.authentication
          ("Network error during authentication: " ++ msg)), 1)
      | .ok r =>
        if r.status = 401 then
          (.error (.authentication
            ("Authentication validation failed: " ++
             "Invalid credentials. Check your username and app password.")),
           1)
        else if r.status ≠ 200 then
          (.error (.authentication
            ("Authentication validation failed: " ++
             "Authentication failed: " ++ toString r.status ++ " " ++
             r.reason)), 1)
        else
          match r.jsonBody with
          | none =>
            (.error (.authentication
              "Authentication validation failed: JSON decode error"), 1)
          | some u =>
            (.ok (.obj [("valid", .bool true),
                        ("user", .obj
                          [("username", userField u "username"),
                           ("display_name", userField u "display_name"),
                           ("uuid", userField u "uuid")])]), 1)

/-- Path lookup through nested JSON objects. -/
def jsonAt : Json → List String → Option Json
  | j, [] => some j
  | j, k :: ks =>
    match j.get k with
    | some v => jsonAt v ks
    | none => none

/-! ## Theorems -/

@[simp] lemma truthy_none : truthy none = false := rfl

lemma bearer_ne_basic (t cred : String) : "Bearer " ++ t ≠ "Basic " ++ cred := by
  intro heq
  have hdata : (['B', 'e', 'a', 'r', 'e', 'r', ' '] ++ t.data) =
      (['B', 'a', 's', 'i', 'c', ' '] ++ cred.data) := by
    have h := congrArg String.data heq
    rwa [String.data_append, String.data_append] at h
  simp only [List.cons_append, List.nil_append, List.cons.injEq] at hdata
  exact absurd hdata.2.1 (by decide)

lemma json_value_ne_basic (cred : String) :
    "application/json" ≠ "Basic " ++ cred := by
  intro heq
  have hdata : ('a' :: "pplication/json".data) =
      (['B', 'a', 's', 'i', 'c', ' '] ++ cred.data) := by
    have h := congrArg String.data heq
    rwa [String.data_append] at h
  simp only [List.cons_append, List.nil_append, List.cons.injEq] at hdata
  exact absurd hdata.1 (by decide)

lemma user_agent_ne_basic (cred : String) :
    "bitbucket-cli-for-claude-code/1.0.0" ≠ "Basic " ++ cred := by
  intro heq
  have hdata : ('b' :: "itbucket-cli-for-claude-code/1.0.0".data) =
      (['B', 'a', 's', 'i', 'c', ' '] ++ cred.data) := by
    have h := congrArg String.data heq
    rwa [String.data_append] at h
  simp only [List.cons_append, List.nil_append, List.cons.injEq] at hdata
  exact absurd hdata.1 (by decide)

/-- C4: the credential resolver evaluates repository token, then OAuth
token, then the username/app-password pair (both parts required), returns
the header set of the first scheme present without merging, and — whenever
a repository token is present — emits the Bearer-style repository-token
header and no Basic-auth header value whatsoever. -/
theorem C4_resolution_order (a : AuthSlots) (e : EnvVars) :
    (truthy (resolveRepoToken a e) = true →
      get_auth_headers a e =
        .ok (authHeaderSet ("Bearer " ++ (resolveRepoToken a e).getD ""))) ∧
    (truthy (resolveRepoToken a e) = false →
      truthy (resolveOauthToken a e) = true →
      get_auth_headers a e =
        .ok (authHeaderSet ("Bearer " ++ (resolveOauthToken a e).getD ""))) ∧
    (truthy (resolveRepoToken a e) = false →
      truthy (resolveOauthToken a e) = false →
      truthy (resolveUsername a e) = true →
      truthy (resolveAppPassword a e) = true →
      get_auth_headers a e =
        .ok (authHeaderSet ("Basic " ++ b64EncodeString
          ((resolveUsername a e).getD "" ++ ":" ++
           (resolveAppPassword a e).getD "")))) ∧
    (truthy (resolveRepoToken a e) = true →
      ∀ hs, get_auth_headers a e = .ok hs →
        ∀ hd ∈ hs, ∀ cred, hd.2 ≠ "Basic " ++ cred) := by
  refine ⟨?_, ?_, ?_, ?_⟩
  · intro h1
    simp [get_auth_headers, h1]
  · intro h1 h2
    simp [get_auth_headers, h1, h2]
  · intro h1 h2 h3 h4
    simp [get_auth_headers, h1, h2, h3, h4]
  · intro h1 hs hok hd hmem cred
    rw [get_auth_headers] at hok
    simp only [h1, if_true] at hok
    cases hok
    simp only [authHeaderSet, List.mem_cons] at hmem
    rcases hmem with h | h | h | h | h
    · subst h; exact bearer_ne_basic _ cred
    · subst h; exact json_value_ne_basic cred
    · subst h; exact json_value_ne_basic cred
    · subst h; exact user_agent_ne_basic cred
    · exact absurd h (List.not_mem_nil hd)

/-- C4 witness: with both a repository token and a username/app-password
pair configured, the resolver returns the Bearer repository-token header
set, none of whose values is a Basic-auth value. -/
theorem C4_resolution_order_witness :
    get_auth_headers
      ⟨some "rtok", some "alice", some "hunter2", none, none⟩
      ⟨none, none, none, none⟩ = .ok (authHeaderSet "Bearer rtok") ∧
    ∀ hd ∈ authHeaderSet "Bearer rtok", ∀ cred, hd.2 ≠ "Basic " ++ cred := by
  have h := C4_resolution_order
    ⟨some "rtok", some "alice", some "hunter2", none, none⟩
    ⟨none, none, none, none⟩
  refine ⟨h.1 rfl, ?_⟩
  exact h.2.2.2 rfl (authHeaderSet "Bearer rtok") (h.1 rfl)

/-- C10: the authentication-presence predicate agrees exactly with the
header resolver — `is_authenticated` returns true precisely when
`get_auth_headers` succeeds, over every configuration and environment. -/
theorem C10_presence_agrees_with_resolver (a : AuthSlots) (e : EnvVars) :
    is_authenticated a e = true ↔ ∃ hs, get_auth_headers a e = .ok hs := by
  unfold is_authenticated get_auth_headers
  by_cases h1 : truthy (resolveRepoToken a e) <;>
    by_cases h2 : truthy (resolveOauthToken a e) <;>
      by_cases h3 : truthy (resolveUsername a e) <;>
        by_cases h4 : truthy (resolveAppPassword a e) <;>
          simp [h1, h2, h3, h4]

/-- C2 counterexample: invoking the credential-setting operation with only
an OAuth token does NOT clear a previously stored repository token — after
the call both the repository token and the OAuth token persist, so two
schemes' secrets coexist in the configuration. -/
theorem C2_counterexample :
    (set_auth ⟨some "rtok", some "alice", some "pw", none, none⟩
        none none none none (some "otok")).repo_token = some "rtok" ∧
    (set_auth ⟨some "rtok", some "alice", some "pw", none, none⟩
        none none none none (some "otok")).oauth_token = some "otok" :=
  ⟨rfl, rfl⟩

/-- C2 (amended): invoking the credential-setting operation with only an
OAuth token clears the stored username and app-password, but leaves the
stored repository token (and workspace) unchanged. -/
theorem C2_oauth_clears_basic_only (c : AuthSlots) (t : String)
    (ht : truthy (some t) = true) :
    set_auth c none none none none (some t) =
      { c with oauth_token := some t,
               username := none, app_password := none } := by
  simp [set_auth, ht]

/-- C2 witness: concrete run of the amended claim. -/
theorem C2_oauth_clears_basic_only_witness :
    set_auth ⟨some "rtok", some "alice", some "pw", none, none⟩
        none none none none (some "otok") =
      ⟨some "rtok", none, none, none, some "otok"⟩ :=
  C2_oauth_clears_basic_only
    ⟨some "rtok", some "alice", some "pw", none, none⟩ "otok" rfl

/-- C7: `get_paginated` substitutes defaults silently for absent
pagination fields — `values` defaults to the empty list, `page` to 1,
`pagelen` to 10, `size` to 0 — and returns the present `values` unchanged
otherwise; it is total, never failing on a missing field. -/
theorem C7_pagination_defaults (response : List (String × Json)) :
    (lookupField response "values" = none →
      (get_paginated response).values = .arr []) ∧
    (lookupField response "page" = none →
      (get_paginated response).page = .num 1) ∧
    (lookupField response "pagelen" = none →
      (get_paginated response).pagelen = .num 10) ∧
    (lookupField response "size" = none →
      (get_paginated response).size = .num 0) ∧
    (∀ v, lookupField response "values" = some v →
      (get_paginated response).values = v) := by
  refine ⟨?_, ?_, ?_, ?_, ?_⟩
  · intro h; simp [get_paginated, h]
  · intro h; simp [get_paginated, h]
  · intro h; simp [get_paginated, h]
  · intro h; simp [get_paginated, h]
  · intro v h; simp [get_paginated, h]

/-- C7 witness: a body carrying only `values` defaults the three
pagination numbers, and an empty body defaults `values` as well. -/
theorem C7_pagination_defaults_witness :
    (get_paginated [("values", Json.arr [Json.num 5])]).page = .num 1 ∧
    (get_paginated [("values", Json.arr [Json.num 5])]).pagelen = .num 10 ∧
    (get_paginated [("values", Json.arr [Json.num 5])]).size = .num 0 ∧
    (get_paginated [("values", Json.arr [Json.num 5])]).values =
      .arr [.num 5] ∧
    (get_paginated []).values = .arr [] := by
  have h1 := C7_pagination_defaults [("values", Json.arr [Json.num 5])]
  have h2 := C7_pagination_defaults []
  exact ⟨h1.2.1 rfl, h1.2.2.1 rfl, h1.2.2.2.1 rfl,
         h1.2.2.2.2 (Json.arr [Json.num 5]) rfl, h2.1 rfl⟩

/-- C5: over any well-formed page sequence (every page but the last
carries a truthy cursor, the last does not), `get_all_pages` returns the
concatenation of the pages' values in server order, issues exactly one
transport call per page, and sleeps exactly once between consecutive
fetches — never after the final page. -/
theorem C5_fetch_all_pages (pre : List PageResp) (last : PageResp)
    (hpre : ∀ p ∈ pre, truthy p.next = true)
    (hlast : truthy last.next = false) :
    get_all_pages (pre ++ [last]) =
      some (((pre ++ [last]).map (fun p => p.values.getD [])).flatten,
            pre.length + 1, pre.length) := by
  induction pre with
  | nil => simp [get_all_pages, hlast]
  | cons p ps ih =>
    have hp : truthy p.next = true := hpre p (List.mem_cons_self p ps)
    have hps : ∀ q ∈ ps, truthy q.next = true :=
      fun q hq => hpre q (List.mem_cons_of_mem p hq)
    simp only [List.cons_append, get_all_pages, hp, if_true, List.append_eq]
    rw [ih hps]
    simp

/-- C5 witness: three pages of sizes 2, 2, 1 yield exactly the five items
in server order with three transport calls and two sleeps; a single page
with no cursor causes exactly one call and no sleep. -/
theorem C5_fetch_all_pages_witness :
    get_all_pages
      [⟨some [Json.num 1, Json.num 2], some "u2"⟩,
       ⟨some [Json.num 3, Json.num 4], some "u3"⟩,
       ⟨some [Json.num 5], none⟩] =
      some ([Json.num 1, Json.num 2, Json.num 3, Json.num 4, Json.num 5],
            3, 2) ∧
    get_all_pages [⟨some [Json.num 9], none⟩] =
      some ([Json.num 9], 1, 0) := by
  have h3 := C5_fetch_all_pages
    [⟨some [Json.num 1, Json.num 2], some "u2"⟩,
     ⟨some [Json.num 3, Json.num 4], some "u3"⟩]
    ⟨some [Json.num 5], none⟩
    (by intro p hp
        simp only [List.mem_cons, List.not_mem_nil, or_false] at hp
        rcases hp with h | h <;> subst h <;> rfl)
    rfl
  have h1 := C5_fetch_all_pages [] ⟨some [Json.num 9], none⟩
    (by intro p hp; exact absurd hp (List.not_mem_nil p)) rfl
  exact ⟨h3, h1⟩

lemma sessionRequest_not_retry (m : Method) (budget : Nat)
    (r : HttpResponse) (rest : List HttpResponse)
    (h : (methodRetryable m && retryableStatus r.status) = false) :
    sessionRequest m budget (r :: rest) = (.ok r, 1) := by
  cases budget <;> simp [sessionRequest, h]

/-- C9: for POST, PUT and DELETE the session never consumes a retry —
whatever the first response's status and whatever the configured retry
budget, exactly one HTTP attempt is made and that response is classified
as usual. -/
theorem C9_no_retry_for_unsafe_methods (m : Method)
    (hm : m = .post ∨ m = .put ∨ m = .delete)
    (budget : Nat) (r : HttpResponse) (rest : List HttpResponse) :
    transport_request m budget (r :: rest) = (handle_response r, 1) := by
  rcases hm with h | h | h <;> subst h <;>
    simp [transport_request, sessionRequest_not_retry, methodRetryable]

/-- C9 witness: a POST answered by a 429 with three retries configured
makes exactly one attempt and surfaces the RateLimit failure. -/
theorem C9_no_retry_for_unsafe_methods_witness :
    transport_request .post 3
      [⟨429, "Too Many Requests", "", none⟩] =
      (.error (.rateLimit "Rate limit exceeded. Please wait and try again."),
       1) :=
  C9_no_retry_for_unsafe_methods .post (Or.inl rfl) 3
    ⟨429, "Too Many Requests", "", none⟩ []

lemma sessionRequest_after_failures (m : Method)
    (hm : methodRetryable m = true) :
    ∀ (fails : List HttpResponse) (budget : Nat) (r : HttpResponse)
      (rest : List HttpResponse),
      (∀ f ∈ fails, retryableStatus f.status = true) →
      fails.length ≤ budget →
      retryableStatus r.status = false →
      sessionRequest m budget (fails ++ r :: rest) =
        (.ok r, fails.length + 1) := by
  intro fails
  induction fails with
  | nil =>
    intro budget r rest _ _ hr
    have : (methodRetryable m && retryableStatus r.status) = false := by
      rw [hr, Bool.and_false]
    cases budget <;> simp [sessionRequest, this]
  | cons f fs ih =>
    intro budget r rest hall hlen hr
    have hf : retryableStatus f.status = true :=
      hall f (List.mem_cons_self f fs)
    have hfs : ∀ g ∈ fs, retryableStatus g.status = true :=
      fun g hg => hall g (List.mem_cons_of_mem f hg)
    cases budget with
    | zero => simp at hlen
    | succ b =>
      have hcond : (methodRetryable m && retryableStatus f.status) = true := by
        rw [hm, hf, Bool.and_self]
      have hlen2 : fs.length ≤ b := Nat.succ_le_succ_iff.mp hlen
      simp only [List.cons_append, List.append_eq, sessionRequest, hcond,
        if_true, ih b r rest hfs hlen2 hr]
      simp

lemma sessionRequest_exhausts (m : Method) (hm : methodRetryable m = true) :
    ∀ (fails : List HttpResponse) (budget : Nat)
      (rest : List HttpResponse),
      (∀ f ∈ fails, retryableStatus f.status = true) →
      fails.length = budget + 1 →
      sessionRequest m budget (fails ++ rest) =
        (.error .retryExhausted, budget + 1) := by
  intro fails
  induction fails with
  | nil => intro budget rest _ hlen; simp at hlen
  | cons f fs ih =>
    intro budget rest hall hlen
    have hf : retryableStatus f.status = true :=
      hall f (List.mem_cons_self f fs)
    have hfs : ∀ g ∈ fs, retryableStatus g.status = true :=
      fun g hg => hall g (List.mem_cons_of_mem f hg)
    have hcond : (methodRetryable m && retryableStatus f.status) = true := by
      rw [hm, hf, Bool.and_self]
    cases budget with
    | zero => simp [sessionRequest, hcond]
    | succ b =>
      have hlen2 : fs.length = b + 1 := by
        simpa using hlen
      simp only [List.cons_append, List.append_eq, sessionRequest, hcond,
        if_true, ih b rest hfs hlen2]

/-- C1 counterexample: with one retry configured, a GET answered by two
429 responses does NOT fail with the RateLimit typed failure — the
retry layer exhausts its budget and raises a retry-exhaustion error
instead, which is outside the typed taxonomy. -/
theorem C1_counterexample :
    (transport_request .get 1
      [⟨429, "Too Many Requests", "", none⟩,
       ⟨429, "Too Many Requests", "", none⟩]).1 = .error .retryExhausted ∧
    isRateLimitFailure (transport_request .get 1
      [⟨429, "Too Many Requests", "", none⟩,
       ⟨429, "Too Many Requests", "", none⟩]).1 = false :=
  ⟨rfl, rfl⟩

/-- C1 (amended): for every configured retry count N, a GET whose
response sequence is N responses with status in
{429, 500, 502, 503, 504} followed by one 200 returns the parsed 200
body after exactly N + 1 attempts; a GET answered by N + 1 such failing
responses makes exactly N + 1 attempts and then fails with the retry
layer's exhaustion error (requests RetryError) — not with the Typed
Failure corresponding to the final status. -/
theorem C1_get_retry_outcome (N : Nat) (fails : List HttpResponse)
    (r : HttpResponse) (rest : List HttpResponse) (j : Json)
    (hlen : fails.length = N)
    (hall : ∀ f ∈ fails, retryableStatus f.status = true)
    (hr : r.status = 200) (hc : r.content ≠ "") (hj : r.jsonBody = some j) :
    transport_request .get N (fails ++ r :: rest) = (.ok j, N + 1) ∧
    ∀ (fails2 rest2 : List HttpResponse),
      fails2.length = N + 1 →
      (∀ f ∈ fails2, retryableStatus f.status = true) →
      transport_request .get N (fails2 ++ rest2) =
        (.error .retryExhausted, N + 1) := by
  constructor
  · have hsess := sessionRequest_after_failures .get rfl fails N r rest
      hall (le_of_eq hlen)
      (by rw [hr]; rfl)
    rw [transport_request, hsess, hlen]
    simp [handle_response, hr, hc, hj]
  · intro fails2 rest2 hlen2 hall2
    have hsess := sessionRequest_exhausts .get rfl fails2 N rest2
      hall2 hlen2
    rw [transport_request, hsess]

/-- C1 witness: with one retry configured, a 500 followed by a 200 with
body yields the parsed body in two attempts, and two 429s yield the
retry-exhaustion error in two attempts. -/
theorem C1_get_retry_outcome_witness :
    transport_request .get 1
      [⟨500, "Internal Server Error", "", none⟩,
       ⟨200, "OK", "x", some (Json.obj [("id", Json.num 7)])⟩] =
      (.ok (Json.obj [("id", Json.num 7)]), 2) ∧
    transport_request .get 1
      [⟨429, "Too Many Requests", "", none⟩,
       ⟨429, "Too Many Requests", "", none⟩] =
      (.error .retryExhausted, 2) := by
  have h := C1_get_retry_outcome 1
    [⟨500, "Internal Server Error", "", none⟩]
    ⟨200, "OK", "x", some (Json.obj [("id", Json.num 7)])⟩ []
    (Json.obj [("id", Json.num 7)])
    rfl
    (by intro f hf
        simp only [List.mem_singleton] at hf
        subst hf; rfl)
    rfl (by simp) rfl
  refine ⟨h.1, ?_⟩
  exact h.2
    [⟨429, "Too Many Requests", "", none⟩,
     ⟨429, "Too Many Requests", "", none⟩] [] rfl
    (by intro f hf
        simp only [List.mem_cons, List.not_mem_nil, or_false] at hf
        rcases hf with hx | hx <;> subst hx <;> rfl)

/-- C3: the transport's exact response classification — 200/201 yield
the parsed body (an empty object on an empty body), 204 an empty object,
401 Authentication, 403 Permission, 404 NotFound, 409 Conflict,
429 RateLimit, and every other status a Generic-API failure whose message
comes from the body's error.message field when the body decodes as an
object carrying it, and otherwise is a generic HTTP-code message. -/
theorem C3_response_classification (r : HttpResponse) :
    ((r.status = 200 ∨ r.status = 201) →
      (r.content = "" → handle_response r = .ok (.obj [])) ∧
      (∀ j, r.jsonBody = some j → r.content ≠ "" →
        handle_response r = .ok j)) ∧
    (r.status = 204 → handle_response r = .ok (.obj [])) ∧
    (r.status = 401 → handle_response r =
      .error (.authentication
        "Authentication failed. Check your credentials.")) ∧
    (r.status = 403 → handle_response r =
      .error (.permission "Insufficient permissions for this operation.")) ∧
    (r.status = 404 → handle_response r =
      .error (.notFound "Resource not found.")) ∧
    (r.status = 409 → handle_response r =
      .error (.conflict
        "Conflict - operation cannot be completed (e.g., PR already merged).")) ∧
    (r.status = 429 → handle_response r =
      .error (.rateLimit "Rate limit exceeded. Please wait and try again.")) ∧
    (r.status ∉ ([200, 201, 204, 401, 403, 404, 409, 429] : List Nat) →
      (∀ fields m, r.jsonBody = some (.obj fields) →
        jsonAt (.obj fields) ["error", "message"] = some (.str m) →
        handle_response r = .error (.apiError ("API Error: " ++ m))) ∧
      (r.jsonBody = none →
        handle_response r = .error (.apiError
          ("API Error: HTTP " ++ toString r.status ++ ": " ++ r.reason)))) := by
  refine ⟨?_, ?_, ?_, ?_, ?_, ?_, ?_, ?_⟩
  · intro hs
    constructor
    · intro hc
      rcases hs with h | h <;> simp [handle_response, h, hc]
    · intro j hj hc
      rcases hs with h | h <;> simp [handle_response, h, hc, hj]
  · intro h; simp [handle_response, h]
  · intro h; simp [handle_response, h]
  · intro h; simp [handle_response, h]
  · intro h; simp [handle_response, h]
  · intro h; simp [handle_response, h]
  · intro h; simp [handle_response, h]
  · intro hnot
    simp only [List.mem_cons, List.not_mem_nil, or_false, not_or] at hnot
    obtain ⟨h200, h201, h204, h401, h403, h404, h409, h429⟩ := hnot
    constructor
    · intro fields m hj hpath
      have hmsg : ∃ errFields,
          lookupField fields "error" = some (.obj errFields) ∧
          lookupField errFields "message" = some (.str m) := by
        simp only [jsonAt, Json.get] at hpath
        cases he : lookupField fields "error" with
        | none => rw [he] at hpath; simp at hpath
        | some v =>
          rw [he] at hpath
          cases v with
          | obj errFields =>
            refine ⟨errFields, rfl, ?_⟩
            simp only [jsonAt, Json.get] at hpath
            cases hm : lookupField errFields "message" with
            | none => rw [hm] at hpath; simp at hpath
            | some w =>
              rw [hm] at hpath
              cases w <;> simp only [jsonAt] at hpath <;>
                simp_all
          | null => simp [jsonAt, Json.get] at hpath
          | bool b => simp [jsonAt, Json.get] at hpath
          | num n => simp [jsonAt, Json.get] at hpath
          | str s => simp [jsonAt, Json.get] at hpath
          | arr xs => simp [jsonAt, Json.get] at hpath
      obtain ⟨errFields, he, hm⟩ := hmsg
      simp [handle_response, h200, h201, h204, h401, h403, h404, h409,
        h429, hj, he, hm]
    · intro hj
      simp [handle_response, h200, h201, h204, h401, h403, h404, h409,
        h429, hj]

/-- C3 witness: concrete responses exercise the empty-200, the 401 and
the generic-status-with-error-message rows of the classification. -/
theorem C3_response_classification_witness :
    handle_response ⟨200, "OK", "", none⟩ = .ok (.obj []) ∧
    handle_response ⟨401, "Unauthorized", "", none⟩ =
      .error (.authentication
        "Authentication failed. Check your credentials.") ∧
    handle_response
        ⟨500, "Internal Server Error", "x",
         some (.obj [("error", .obj [("message", .str "boom")])])⟩ =
      .error (.apiError "API Error: boom") := by
  have h200 := C3_response_classification ⟨200, "OK", "", none⟩
  have h401 := C3_response_classification ⟨401, "Unauthorized", "", none⟩
  have h500 := C3_response_classification
    ⟨500, "Internal Server Error", "x",
     some (.obj [("error", .obj [("message", .str "boom")])])⟩
  refine ⟨(h200.1 (Or.inl rfl)).1 rfl, h401.2.2.1 rfl, ?_⟩
  exact (h500.2.2.2.2.2.2.2 (by decide)).1
    [("error", .obj [("message", .str "boom")])] "boom" rfl rfl

/-- C6: an inline comment request with a file, a from_line and a to_line
produces a payload whose inline.from.path is the file, inline.from.line
the starting line, and inline.to.line the ending line (to.path also being
the file — there is no independent from-file); a single-line inline
comment (file and line only) sets inline.to.line and produces no
inline.from object. -/
theorem C6_inline_comment_payload (message f : String)
    (line reply : Option Int) (fl tl l : Int)
    (hf : truthy (some f) = true)
    (hfl : truthyInt (some fl) = true) (htl : truthyInt (some tl) = true)
    (hl : truthyInt (some l) = true) :
    (jsonAt (add_comment_payload message (some f) line (some fl) (some tl)
        reply) ["inline", "from", "path"] = some (.str f) ∧
     jsonAt (add_comment_payload message (some f) line (some fl) (some tl)
        reply) ["inline", "from", "line"] = some (.num fl) ∧
     jsonAt (add_comment_payload message (some f) line (some fl) (some tl)
        reply) ["inline", "to", "line"] = some (.num tl) ∧
     jsonAt (add_comment_payload message (some f) line (some fl) (some tl)
        reply) ["inline", "to", "path"] = some (.str f)) ∧
    (jsonAt (add_comment_payload message (some f) (some l) none none reply)
        ["inline", "to", "line"] = some (.num l) ∧
     jsonAt (add_comment_payload message (some f) (some l) none none reply)
        ["inline", "to", "path"] = some (.str f) ∧
     jsonAt (add_comment_payload message (some f) (some l) none none reply)
        ["inline", "from"] = none) := by
  cases hline : truthyInt line <;> cases hreply : truthyInt reply <;>
    simp only [add_comment_payload, hf, hfl, htl, hl, hline, hreply,
      Bool.and_self, if_true, if_false] <;>
    exact ⟨⟨rfl, rfl, rfl, rfl⟩, rfl, rfl, rfl⟩

/-- C6 witness: file "a.py", from_line 3, to_line 7 gives
inline.from.path "a.py" and inline.to.line 7; file "a.py", line 5 gives
inline.to.line 5 and no inline.from. -/
theorem C6_inline_comment_payload_witness :
    jsonAt (add_comment_payload "hi" (some "a.py") none (some 3) (some 7)
        none) ["inline", "from", "path"] = some (.str "a.py") ∧
    jsonAt (add_comment_payload "hi" (some "a.py") none (some 3) (some 7)
        none) ["inline", "to", "line"] = some (.num 7) ∧
    jsonAt (add_comment_payload "hi" (some "a.py") (some 5) none none
        none) ["inline", "to", "line"] = some (.num 5) ∧
    jsonAt (add_comment_payload "hi" (some "a.py") (some 5) none none
        none) ["inline", "from"] = none := by
  have h := C6_inline_comment_payload "hi" "a.py" none none 3 7 5
    rfl rfl rfl rfl
  exact ⟨h.1.1, h.1.2.2.1, h.2.1, h.2.2.2⟩

/-- C8: credential validation with a repository token present reports
the credential valid with zero network calls; otherwise, with an OAuth
token or a full username/app-password pair resolved, it issues exactly
one GET and maps a network-level failure, a 401, and any other non-200
status each to an Authentication failure (the non-200 message carrying
the status code, the network message wrapping the network error). -/
theorem C8_validate_auth (a : AuthSlots) (e : EnvVars)
    (net : Except String HttpResponse) :
    (truthy (resolveRepoToken a e) = true →
      validate_auth a e net = (.ok repoTokenUserResult, 0)) ∧
    (truthy (resolveRepoToken a e) = false →
      (truthy (resolveOauthToken a e) = true ∨
       (truthy (resolveUsername a e) = true ∧
        truthy (resolveAppPassword a e) = true)) →
      (validate_auth a e net).2 = 1 ∧
      (∀ msg, net = .error msg →
        (validate_auth a e net).1 = .error (.authentication
          ("Network error during authentication: " ++ msg))) ∧
      (∀ r, net = .ok r → r.status = 401 →
        (validate_auth a e net).1 = .error (.authentication
          ("Authentication validation failed: " ++
           "Invalid credentials. Check your username and app password."))) ∧
      (∀ r, net = .ok r → r.status ≠ 401 → r.status ≠ 200 →
        (validate_auth a e net).1 = .error (.authentication
          ("Authentication validation failed: " ++
           "Authentication failed: " ++ toString r.status ++ " " ++
           r.reason)))) := by
  constructor
  · intro hrepo
    simp [validate_auth, get_auth_headers, hrepo]
  · intro hrepo hok
    have hh : ∃ hs, get_auth_headers a e = .ok hs := by
      unfold get_auth_headers
      simp only [hrepo, Bool.false_eq_true, if_false]
      rcases hok with hoauth | ⟨hu, hp2⟩
      · rw [if_pos hoauth]; exact ⟨_, rfl⟩
      · by_cases ho : truthy (resolveOauthToken a e) = true
        · rw [if_pos ho]; exact ⟨_, rfl⟩
        · rw [if_neg ho, if_pos]
          · exact ⟨_, rfl⟩
          · rw [hu, hp2]; rfl
    obtain ⟨hs, hh⟩ := hh
    refine ⟨?_, ?_, ?_, ?_⟩
    · cases net with
      | error msg => simp [validate_auth, hh, hrepo]
      | ok r =>
        simp only [validate_auth, hh, hrepo, Bool.false_eq_true, if_false]
        split_ifs <;> try rfl
        cases r.jsonBody <;> rfl
    · intro msg hnet
      subst hnet
      simp [validate_auth, hh, hrepo]
    · intro r hnet h401
      subst hnet
      simp [validate_auth, hh, hrepo, h401]
    · intro r hnet hn401 hn200
      subst hnet
      simp [validate_auth, hh, hrepo, hn401, hn200]

/-- C8 witness: a repository token validates with zero calls; an OAuth
token with a 401 reply yields the wrapped Authentication failure after
exactly one call. -/
theorem C8_validate_auth_witness :
    validate_auth ⟨some "rt", none, none, none, none⟩ ⟨none, none, none, none⟩
        (.ok ⟨401, "Unauthorized", "", none⟩) = (.ok repoTokenUserResult, 0) ∧
    (validate_auth ⟨none, none, none, none, some "ot"⟩ ⟨none, none, none, none⟩
        (.ok ⟨401, "Unauthorized", "", none⟩)).2 = 1 ∧
    (validate_auth ⟨none, none, none, none, some "ot"⟩ ⟨none, none, none, none⟩
        (.ok ⟨401, "Unauthorized", "", none⟩)).1 = .error (.authentication
      "Authentication validation failed: Invalid credentials. Check your username and app password.") := by
  have h1 := C8_validate_auth ⟨some "rt", none, none, none, none⟩
    ⟨none, none, none, none⟩ (.ok ⟨401, "Unauthorized", "", none⟩)
  have h2 := C8_validate_auth ⟨none, none, none, none, some "ot"⟩
    ⟨none, none, none, none⟩ (.ok ⟨401, "Unauthorized", "", none⟩)
  refine ⟨h1.1 rfl, (h2.2 rfl (Or.inl rfl)).1, ?_⟩
  exact (h2.2 rfl (Or.inl rfl)).2.2.1 ⟨401, "Unauthorized", "", none⟩ rfl rfl

end BitbucketCLI
